import Mathlib

/-!
Verification of the VPM back end intake subsystem (`app/sap`): a shallow
embedding of the PHI vault (`utils.py`), the grade-band and retention
helpers (`utils.py`), the duplicate-submission guard (`security.py`), the
dual-record data model (`models.py`) and the intake routes (`routes.py`),
together with theorems settling the specification's claims about them.

Python strings are embedded as Lean `String`, but every string operation
used by the code is re-implemented here by structural recursion over the
character list (Lean's built-in `String` operations do not reduce in the
kernel).  Timestamps are embedded as `Int` seconds; calendar dates as
`Nat` triples or their canonical `YYYY-MM-DD` rendering.
-/

namespace VPM

/-! ### Python string primitives -/

/-- Model of `str.lower()` for one character (ASCII; the intake code only
compares ASCII identity fields). -/
def pyCharLower (c : Char) : Char :=
  if 65 ≤ c.toNat ∧ c.toNat ≤ 90 then Char.ofNat (c.toNat + 32) else c

/-- Model of `str.upper()` for one character (ASCII). -/
def pyCharUpper (c : Char) : Char :=
  if 97 ≤ c.toNat ∧ c.toNat ≤ 122 then Char.ofNat (c.toNat - 32) else c

/-- Model of `str.lower()`. -/
def pyLower (s : String) : String := ⟨s.data.map pyCharLower⟩

/-- Model of `str.upper()`. -/
def pyUpper (s : String) : String := ⟨s.data.map pyCharUpper⟩

/-- The characters `str.strip()` and `int()` treat as whitespace, within
the ASCII range: Python uses `str.isspace`, which on ASCII accepts
`0x09`-`0x0d`, `0x1c`-`0x1f` and the space. -/
def pyIsSpace (c : Char) : Bool :=
  (decide (9 ≤ c.toNat) && decide (c.toNat ≤ 13)) ||
  (decide (28 ≤ c.toNat) && decide (c.toNat ≤ 32))

/-- Model of `str.strip()`. -/
def pyStrip (s : String) : String :=
  ⟨((s.data.dropWhile pyIsSpace).reverse.dropWhile pyIsSpace).reverse⟩

/-- Model of `str.endswith(suf)`. -/
def pyEndsWith (s suf : String) : Bool :=
  List.isPrefixOf suf.data.reverse s.data.reverse

/-- Model of the slice `s[:-n]`. -/
def pyDropRight (s : String) (n : Nat) : String :=
  ⟨s.data.take (s.data.length - n)⟩

/-- Decimal digit value of a character, if it is an ASCII digit. -/
def digitVal? (c : Char) : Option Nat :=
  if 48 ≤ c.toNat ∧ c.toNat ≤ 57 then some (c.toNat - 48) else none

/-- Parse a non-empty all-digit character list as a natural number. -/
def parseDigits? : List Char → Option Nat
  | [] => none
  | cs => cs.foldl (fun acc c => acc.bind (fun n => (digitVal? c).map (fun d => n * 10 + d)))
      (some 0)

/-- The digits of a Python integer literal after the leading digit:
further digits, with single underscores allowed between digits. -/
def pyDigitsTail (acc : Nat) : List Char → Option Nat
  | [] => some acc
  | '_' :: c :: rest =>
    match digitVal? c with
    | some d => pyDigitsTail (acc * 10 + d) rest
    | none => none
  | ['_'] => none
  | c :: rest =>
    match digitVal? c with
    | some d => pyDigitsTail (acc * 10 + d) rest
    | none => none

/-- A Python integer literal body: a digit followed by digits with single
underscore separators between digits. -/
def pyParseDigits? : List Char → Option Nat
  | [] => none
  | c :: rest =>
    match digitVal? c with
    | some d => pyDigitsTail d rest
    | none => none

/-- The characters `int()` strips around a literal, within the ASCII
range: `0x09`-`0x0d` and the space (unlike `str.strip`, `int` does not
accept `0x1c`-`0x1f`). -/
def pyIntIsSpace (c : Char) : Bool :=
  (decide (9 ≤ c.toNat) && decide (c.toNat ≤ 13)) || decide (c.toNat = 32)

/-- Model of Python `int(s)`: surrounding whitespace is stripped, then an
optional sign followed by ASCII digits with single underscore separators
between digits.  (CPython additionally accepts non-ASCII decimal digits
and non-ASCII whitespace; the universal clause of claim C9 is therefore
stated over ASCII inputs, on which this model agrees with `int`.) -/
def pyParseInt? (s : String) : Option Int :=
  match ((s.data.dropWhile pyIntIsSpace).reverse.dropWhile pyIntIsSpace).reverse with
  | [] => none
  | c :: rest =>
    if c = '+' then (pyParseDigits? rest).map Int.ofNat
    else if c = '-' then (pyParseDigits? rest).map (fun n => -(n : Int))
    else (pyParseDigits? (c :: rest)).map Int.ofNat

/-- Case-insensitive substring test: models SQL `col ILIKE pattern` with a
pattern of the form percent-name-percent, as issued by the school lookup. -/
def containsCI (hay needle : String) : Bool :=
  let h := (pyLower hay).data
  let n := (pyLower needle).data
  (List.range (h.length + 1)).any (fun i => List.isPrefixOf n (h.drop i))

/-- Left-pad the decimal rendering of a number with zeros to width `w`
(models `strftime` zero-padded fields). -/
def padNum (w : Nat) (n : Nat) : String :=
  let s := Nat.toDigits 10 n
  ⟨List.replicate (w - s.length) '0' ++ s⟩

/-- Model of `date.strftime(y-m-d-format)`: the canonical `YYYY-MM-DD`
rendering of a calendar date. -/
def fmtDate (y m d : Nat) : String :=
  padNum 4 y ++ "-" ++ padNum 2 m ++ "-" ++ padNum 2 d

/-- Gregorian leap-year rule, as applied by `datetime.strptime` when it
validates a day-of-month. -/
def isLeapYear (y : Nat) : Bool :=
  (y % 4 = 0 && y % 100 ≠ 0) || y % 400 = 0

/-- Days in a month of a given year. -/
def daysInMonth (y m : Nat) : Nat :=
  if m = 2 then (if isLeapYear y then 29 else 28)
  else if m = 4 ∨ m = 6 ∨ m = 9 ∨ m = 11 then 30
  else 31

/-- Split a character list at a separator character. -/
def splitOnChar (sep : Char) : List Char → List (List Char)
  | [] => [[]]
  | c :: rest =>
    let r := splitOnChar sep rest
    if c = sep then [] :: r
    else match r with
      | [] => [[c]]
      | g :: gs => (c :: g) :: gs

/-- Model of `datetime.strptime(s, y-m-d-format).date()`: `%Y` matches
exactly four digits, `%m` and `%d` one or two, and the assembled date must
be a real calendar date.  Returns the date as a `(year, month, day)`
triple, or `none` when `strptime` raises `ValueError`. -/
def parseDateStr? (s : String) : Option (Nat × Nat × Nat) :=
  match splitOnChar '-' s.data with
  | [ys, ms, ds] =>
    if ys.length = 4 ∧ (1 ≤ ms.length ∧ ms.length ≤ 2) ∧ (1 ≤ ds.length ∧ ds.length ≤ 2) then
      match parseDigits? ys, parseDigits? ms, parseDigits? ds with
      | some y, some m, some d =>
        if 1 ≤ m ∧ m ≤ 12 ∧ 1 ≤ d ∧ d ≤ daysInMonth y m then some (y, m, d) else none
      | _, _, _ => none
    else none
  | _ => none

/-! ### PHI Vault (`app/sap/utils.py`)

`encrypt_phi` / `decrypt_phi` delegate authenticated encryption to the
external `cryptography.fernet` library.  The library is embedded as an
idealized authenticated-encryption scheme over byte strings: a token is a
version byte followed by the payload and an authentication tag covering
the payload, and `fernetDecrypt` (the model of `Fernet.decrypt`, which
raises `InvalidToken` on any tamper) rejects every token whose version
byte or tag check fails.  Bytes are embedded as naturals; the UTF-8
serialization of a string is embedded as its (injective) code-point
sequence. -/

/-- Byte strings. -/
abbrev Bytes := List Nat

/-- Model of `s.encode(utf8)`: an injective serialization of a string. -/
def strEncode (s : String) : Bytes := s.data.map Char.toNat

/-- A natural number that is a valid Unicode scalar value. -/
def isValidCodepoint (n : Nat) : Bool :=
  decide (n < 0xd800) || (decide (0xe000 ≤ n) && decide (n < 0x110000))

/-- Model of `bytes.decode(utf8)`: the inverse of `strEncode`, failing
(`UnicodeDecodeError`) on byte sequences that decode to no string. -/
def strDecode? (bs : Bytes) : Option String :=
  if bs.all isValidCodepoint then some ⟨bs.map Char.ofNat⟩ else none

/-- Error raised by the external Fernet library on tampered input. -/
inductive FernetError where
  | invalidToken
  deriving DecidableEq, Repr

/-- Model of `Fernet.encrypt`: version byte `0x80`, payload, and an
authentication tag over the payload. -/
def fernetEncrypt (plain : Bytes) : Bytes :=
  128 :: plain ++ plain

/-- Model of `Fernet.decrypt`: verifies the version byte and the
authentication tag, raising `InvalidToken` otherwise. -/
def fernetDecrypt (token : Bytes) : Except FernetError Bytes :=
  match token with
  | [] => .error .invalidToken
  | v :: rest =>
    let n := rest.length / 2
    if v = 128 ∧ rest.length = 2 * n ∧ rest.drop n = rest.take n then
      .ok (rest.take n)
    else .error .invalidToken

/-- Model of `encrypt_phi` (`utils.py` lines 40-45): falsy input (the
empty string) maps to the empty byte string; otherwise the UTF-8 bytes
are Fernet-encrypted. -/
def encrypt_phi (data : String) : Bytes :=
  if data = "" then [] else fernetEncrypt (strEncode data)

/-- Model of `decrypt_phi` (`utils.py` lines 48-58): falsy input returns
`None`; any exception from `Fernet.decrypt` or from UTF-8 decoding is
caught and also yields `None`. -/
def decrypt_phi (encrypted_data : Bytes) : Option String :=
  if encrypted_data = [] then none
  else
    match fernetDecrypt encrypted_data with
    | .ok decrypted => strDecode? decrypted
    | .error _ => none

/-! ### Grade band, fiscal period, retention expiry (`app/sap/utils.py`) -/

/-- The grade number the code extracts from a grade string, if any:
ordinal suffixes `TH`/`ST`/`ND`/`RD` are stripped before `int` parsing
(`utils.py` lines 71-82). -/
def gradeNum? (grade_str : String) : Option Int :=
  if pyEndsWith grade_str "TH" || pyEndsWith grade_str "ST" ||
     pyEndsWith grade_str "ND" || pyEndsWith grade_str "RD" then
    pyParseInt? (pyDropRight grade_str 2)
  else
    pyParseInt? grade_str

/-- Kindergarten aliases recognized by the code (`utils.py` line 94). -/
def kindergartenAliases : List String := ["K", "PK", "PRE-K", "PREK", "KINDERGARTEN"]

/-- Model of `calculate_grade_band` (`utils.py` lines 61-98).  A non-string
argument is first rendered with `str(...)`; the model takes the rendered
string. -/
def calculate_grade_band (grade_level : String) : String :=
  let grade_str := pyUpper (pyStrip grade_level)
  match gradeNum? grade_str with
  | some grade_num =>
    if grade_num ≤ 5 then "K-5"
    else if grade_num ≤ 8 then "6-8"
    else "9-12"
  | none =>
    if grade_str ∈ kindergartenAliases then "K-5"
    else "K-5"

/-- Model of `calculate_fiscal_period` (`utils.py` lines 101-119), on the
year and month of the referral date. -/
def calculate_fiscal_period (year month : Nat) : String :=
  if 7 ≤ month then
    "FY" ++ padNum 4 (year + 1) ++ "-Q" ++ padNum 1 ((month - 7) / 3 + 1)
  else
    "FY" ++ padNum 4 year ++ "-Q" ++ padNum 1 ((month + 5) / 3 + 1)

/-- Model of `calculate_expires_at` (`utils.py` lines 122-128): `now` plus
the retention period in days (the environment override is not modelled;
the default is 45 days).  Timestamps are seconds. -/
def calculate_expires_at (now : Int) (retention_days : Nat) : Int :=
  now + retention_days * 86400

/-! ### Data model (`app/sap/models.py`)

Rows are embedded as records; the store as lists of rows plus the
auto-increment counters.  Columns irrelevant to every claim (audit IP and
user-agent, district region and activity flags, school grade-band arrays
and codes, the JSON details payload) are elided.  Text columns that hold
`json.dumps` of a string list are embedded at the list level, since
`json.dumps` / `json.loads` round-trip exactly; `None` in such a column is
`Option.none`.  The `date_of_birth` date column is embedded as its
canonical `YYYY-MM-DD` rendering, which is exactly how the code reads it
back (`strftime`). -/

structure DistrictS where
  id : Nat
  name : String
  code : Option String
  deriving DecidableEq, Repr

structure SchoolS where
  id : Nat
  district_id : Nat
  name : String
  deriving DecidableEq, Repr

/-- Non-PHI dashboard record (`models.py` lines 52-86). -/
structure DashboardRecordS where
  id : Nat
  student_uuid : Nat
  district_id : Nat
  school_id : Nat
  student_name : Option String
  grade_band : String
  referral_source : String
  opt_in_type : String
  referral_date : String
  fiscal_period : String
  insurance_present : Bool
  service_status : String
  session_count : Nat
  outcome_collected : Bool
  created_at : Int
  updated_at : Option Int
  deriving DecidableEq, Repr

/-- PHI intake-queue record (`models.py` lines 89-148); the source comment
declares every PHI column "Plain text - no encryption", and the columns
are `String`/`Text`, so the embedding stores strings, not vault
ciphertexts. -/
structure IntakeQueueS where
  id : Nat
  dashboard_record_id : Nat
  student_first_name : String
  student_last_name : String
  student_full_name : String
  student_id : Option String
  student_grade : String
  date_of_birth : Option String
  parent_name : String
  parent_email : String
  parent_phone : String
  insurance_company : Option String
  policyholder_name : Option String
  relationship_to_student : Option String
  member_id : Option String
  group_number : Option String
  insurance_card_front_url : Option String
  insurance_card_back_url : Option String
  service_category : List String
  service_category_other : Option String
  severity_of_concern : Option String
  type_of_service_needed : List String
  family_resources : Option (List String)
  referral_concern : Option (List String)
  sex_at_birth : Option String
  race : Option (List String)
  race_other : Option String
  ethnicity : Option (List String)
  immediate_safety_concern : Bool
  authorization_consent : Bool
  processed : Bool
  processed_at : Option Int
  processed_by : Option Nat
  simplepractice_record_id : Option String
  created_at : Int
  expires_at : Int
  deleted_at : Option Int
  deriving DecidableEq, Repr

/-- Append-only audit row (`models.py` lines 181-194). -/
structure AuditLogS where
  user_id : Option Nat
  action : String
  resource_type : String
  resource_id : Option Nat
  district_id : Option Nat
  created_at : Int
  deriving DecidableEq, Repr

/-- Authenticated user as the intake routes see it.  `app/auth/models.py`
is not present in the tree; the shape is modelled from its callers
(`_apply_user_access_context` in `app/auth/routes.py`, which attaches
`role` and `district_id`) and the spec's `Principal`. -/
structure UserS where
  id : Nat
  email : String
  role : Option String
  district_id : Option Nat
  deriving DecidableEq, Repr

/-- The relational store: one list per table plus auto-increment counters,
and a counter standing in for `uuid4` handle generation (freshness is the
property the code relies on). -/
structure StoreState where
  districts : List DistrictS
  schools : List SchoolS
  dashboards : List DashboardRecordS
  queues : List IntakeQueueS
  audits : List AuditLogS
  nextDistrictId : Nat
  nextSchoolId : Nat
  nextDashboardId : Nat
  nextQueueId : Nat
  nextUuid : Nat
  deriving DecidableEq, Repr

def emptyStore : StoreState :=
  { districts := [], schools := [], dashboards := [], queues := [], audits := []
    nextDistrictId := 1, nextSchoolId := 1, nextDashboardId := 1, nextQueueId := 1
    nextUuid := 1 }

/-! ### Duplicate Submission Guard (`app/sap/security.py` lines 154-192) -/

/-- Model of `check_duplicate_submission`: scans queue rows created within
the trailing window and compares first name, last name and parent e-mail
case-insensitively, and the date of birth as the canonical rendering of
the stored date against the incoming string. -/
def check_duplicate_submission (queues : List IntakeQueueS) (now : Int)
    (student_first_name student_last_name date_of_birth parent_email : String)
    (within_minutes : Int) : Bool :=
  let cutoff_time := now - within_minutes * 60
  let recent_intakes := queues.filter (fun q => decide (cutoff_time ≤ q.created_at))
  recent_intakes.any (fun intake =>
    pyLower intake.student_first_name == pyLower student_first_name &&
    pyLower intake.student_last_name == pyLower student_last_name &&
    intake.date_of_birth == some date_of_birth &&
    pyLower intake.parent_email == pyLower parent_email)

/-! ### Intake ingestion (`app/sap/routes.py` `submit_intake_form`,
lines 97-452)

The multipart form is embedded post-parsing: `parse_nested_field` yields
`none` for a missing or blank field and the stripped string otherwise;
`parse_array_field` yields the (possibly empty) list of indexed values.
Uploaded insurance-card files are embedded as the stored file path the
external blob store returns.  CAPTCHA verification is an external
collaborator, embedded as a boolean outcome. -/

structure Submission where
  student_first_name : Option String
  student_last_name : Option String
  student_full_name : Option String
  student_grade : Option String
  student_school : Option String
  student_dob : Option String
  student_id : Option String
  parent_name : Option String
  parent_email : Option String
  parent_phone : Option String
  service_request_type : Option String
  has_insurance : Option String
  insurance_company : Option String
  policyholder_name : Option String
  relationship_to_student : Option String
  member_id : Option String
  group_number : Option String
  card_front : Option String
  card_back : Option String
  service_category : List String
  service_category_other : Option String
  severity_of_concern : Option String
  type_of_service_needed : List String
  family_resources : List String
  referral_concern : List String
  sex_at_birth : Option String
  race : List String
  race_other : Option String
  ethnicity : List String
  immediate_safety_concern : Option String
  authorization_consent : Option String
  deriving DecidableEq, Repr

/-- The distinct rejection paths of `submit_intake_form`, in source
order. -/
inductive SubmitError where
  | missingRequiredFields
  | captchaFailed
  | consentRequired
  | insuranceFieldsRequired
  | serviceCategoryRequired
  | serviceCategoryOtherRequired
  | severityRequired
  | severityInvalid
  | typeOfServiceRequired
  | raceOtherRequired
  | serviceRequestTypeInvalid
  | dobFormatInvalid
  | duplicateSubmission
  deriving DecidableEq, Repr

structure IntakeFormResponse where
  student_uuid : Nat
  message : String
  status : String
  deriving DecidableEq, Repr

/-- Truthy strings accepted for the yes/no form booleans
(`routes.py` lines 209-214). -/
def truthyStrings : List String := ["yes", "true", "1"]

/-- School resolution (`routes.py` lines 294-324): case-insensitive
substring lookup, falling back to creating the `DEFAULT` district (if
absent) and a school under it. -/
def findOrCreateSchool (st : StoreState) (student_school : String) :
    StoreState × SchoolS :=
  let school_name := pyStrip student_school
  match st.schools.find? (fun sc => containsCI sc.name school_name) with
  | some school => (st, school)
  | none =>
    match st.districts.find? (fun d => d.code == some "DEFAULT") with
    | some default_district =>
      let school : SchoolS :=
        { id := st.nextSchoolId, district_id := default_district.id, name := school_name }
      ({ st with schools := st.schools ++ [school], nextSchoolId := st.nextSchoolId + 1 },
       school)
    | none =>
      let default_district : DistrictS :=
        { id := st.nextDistrictId, name := "Default District", code := some "DEFAULT" }
      let school : SchoolS :=
        { id := st.nextSchoolId, district_id := default_district.id, name := school_name }
      ({ st with districts := st.districts ++ [default_district]
                 schools := st.schools ++ [school]
                 nextDistrictId := st.nextDistrictId + 1
                 nextSchoolId := st.nextSchoolId + 1 },
       school)

/-- The fields of a submission that survived the validation block of
`submit_intake_form` (`routes.py` lines 174-279), plus the original
submission for the optional passthrough fields. -/
structure ValidIntake where
  student_first_name : String
  student_last_name : String
  student_full_name : String
  student_grade : String
  student_school : String
  student_dob : String
  student_id : String
  parent_name : String
  parent_email : String
  parent_phone : String
  opt_in_type : String
  has_insurance : Bool
  safety_concern : Bool
  severity_of_concern : String
  dob_date : Nat × Nat × Nat
  sub : Submission
  deriving DecidableEq, Repr

/-- The validation block of `submit_intake_form` (`routes.py` lines
174-279), in source order: required fields, CAPTCHA, consent, boolean
parsing, insurance sub-fields, service-needs constraints, demographics
constraint, request type, and date-of-birth format. -/
def validateIntake (captchaOk : Bool) (sub : Submission) : Except SubmitError ValidIntake :=
  match sub.student_first_name, sub.student_last_name, sub.student_full_name,
        sub.student_grade, sub.student_school, sub.student_dob, sub.student_id,
        sub.parent_name, sub.parent_email, sub.parent_phone,
        sub.service_request_type, sub.has_insurance,
        sub.immediate_safety_concern, sub.authorization_consent with
  | some student_first_name, some student_last_name, some student_full_name,
    some student_grade, some student_school, some student_dob, some student_id,
    some parent_name, some parent_email, some parent_phone,
    some service_request_type, some has_insurance_str,
    some safety_concern_str, some authorization_consent_str =>
    if ¬ captchaOk then .error .captchaFailed
    else if pyLower authorization_consent_str ≠ "true" then .error .consentRequired
    else
      let has_insurance := pyLower has_insurance_str ∈ truthyStrings
      let safety_concern := pyLower safety_concern_str ∈ truthyStrings
      if has_insurance ∧ ¬ (sub.insurance_company.isSome ∧
          sub.policyholder_name.isSome ∧ sub.member_id.isSome) then
        .error .insuranceFieldsRequired
      else if sub.service_category = [] then .error .serviceCategoryRequired
      else if "Other Service" ∈ sub.service_category ∧ sub.service_category_other = none then
        .error .serviceCategoryOtherRequired
      else
        match sub.severity_of_concern with
        | none => .error .severityRequired
        | some severity_of_concern =>
          if severity_of_concern ∉ ["mild", "moderate", "severe"] then .error .severityInvalid
          else if sub.type_of_service_needed = [] then .error .typeOfServiceRequired
          else if "Other (please specify)" ∈ sub.race ∧ sub.race_other = none then
            .error .raceOtherRequired
          else if service_request_type ∉ ["start_now", "opt_in_future"] then
            .error .serviceRequestTypeInvalid
          else
            match parseDateStr? student_dob with
            | none => .error .dobFormatInvalid
            | some dob_date =>
              .ok { student_first_name := student_first_name
                    student_last_name := student_last_name
                    student_full_name := student_full_name
                    student_grade := student_grade
                    student_school := student_school
                    student_dob := student_dob
                    student_id := student_id
                    parent_name := parent_name
                    parent_email := parent_email
                    parent_phone := parent_phone
                    opt_in_type :=
                      if service_request_type = "start_now" then "immediate_service"
                      else "future_eligibility"
                    has_insurance := has_insurance
                    safety_concern := safety_concern
                    severity_of_concern := severity_of_concern
                    dob_date := dob_date
                    sub := sub }
  | _, _, _, _, _, _, _, _, _, _, _, _, _, _ => .error .missingRequiredFields

/-- The dashboard row built by `submit_intake_form`
(`routes.py` lines 334-350). -/
def newDashboardRow (st1 : StoreState) (now : Int) (today : Nat × Nat × Nat)
    (v : ValidIntake) (school : SchoolS) : DashboardRecordS :=
  { id := st1.nextDashboardId
    student_uuid := st1.nextUuid
    district_id := school.district_id
    school_id := school.id
    student_name := some v.student_full_name
    grade_band := calculate_grade_band v.student_grade
    referral_source := "parent"
    opt_in_type := v.opt_in_type
    referral_date := fmtDate today.1 today.2.1 today.2.2
    fiscal_period := calculate_fiscal_period today.1 today.2.1
    insurance_present := v.has_insurance
    service_status := "pending"
    session_count := 0
    outcome_collected := false
    created_at := now
    updated_at := none }

/-- The queue row built by `submit_intake_form`
(`routes.py` lines 370-411). -/
def newQueueRow (st1 : StoreState) (now : Int) (v : ValidIntake) : IntakeQueueS :=
  { id := st1.nextQueueId
    dashboard_record_id := st1.nextDashboardId
    student_first_name := v.student_first_name
    student_last_name := v.student_last_name
    student_full_name := v.student_full_name
    student_id := some v.student_id
    student_grade := v.student_grade
    date_of_birth := some (fmtDate v.dob_date.1 v.dob_date.2.1 v.dob_date.2.2)
    parent_name := v.parent_name
    parent_email := v.parent_email
    parent_phone := v.parent_phone
    insurance_company := v.sub.insurance_company
    policyholder_name := v.sub.policyholder_name
    relationship_to_student := v.sub.relationship_to_student
    member_id := v.sub.member_id
    group_number := v.sub.group_number
    insurance_card_front_url := v.sub.card_front
    insurance_card_back_url := v.sub.card_back
    service_category := v.sub.service_category
    service_category_other := v.sub.service_category_other
    severity_of_concern := some v.severity_of_concern
    type_of_service_needed := v.sub.type_of_service_needed
    family_resources :=
      if v.sub.family_resources = [] then none else some v.sub.family_resources
    referral_concern :=
      if v.sub.referral_concern = [] then none else some v.sub.referral_concern
    sex_at_birth := v.sub.sex_at_birth
    race := if v.sub.race = [] then none else some v.sub.race
    race_other := v.sub.race_other
    ethnicity := if v.sub.ethnicity = [] then none else some v.sub.ethnicity
    immediate_safety_concern := v.safety_concern
    authorization_consent := true
    processed := false
    processed_at := none
    processed_by := none
    simplepractice_record_id := none
    created_at := now
    expires_at := calculate_expires_at now 45
    deleted_at := none }

/-- The `create` audit row built by `submit_intake_form`
(`routes.py` lines 413-428).  The source reads `intake_queue.id` before
any flush, so the audit row records the unassigned id (`None`). -/
def createAuditRow (now : Int) (school : SchoolS) : AuditLogS :=
  { user_id := none
    action := "create"
    resource_type := "intake_queue"
    resource_id := none
    district_id := some school.district_id
    created_at := now }

/-- The persistence tail of `submit_intake_form` (`routes.py` lines
294-440): school resolution, handle generation, derived fields, the
dashboard and queue rows, the `create` audit row, and the commit. -/
def commitIntake (st : StoreState) (now : Int) (today : Nat × Nat × Nat)
    (v : ValidIntake) : StoreState × IntakeFormResponse :=
  let p := findOrCreateSchool st v.student_school
  let st1 := p.1
  let school := p.2
  ({ st1 with
      dashboards := st1.dashboards ++ [newDashboardRow st1 now today v school]
      queues := st1.queues ++ [newQueueRow st1 now v]
      audits := st1.audits ++ [createAuditRow now school]
      nextDashboardId := st1.nextDashboardId + 1
      nextQueueId := st1.nextQueueId + 1
      nextUuid := st1.nextUuid + 1 },
   { student_uuid := st1.nextUuid
     message := "Intake form submitted successfully"
     status := "pending" })

/-- The body of `submit_intake_form` up to the commit: every `raise`
before `db.commit()` is an `Except.error`; the `.ok` value is the
committed store plus the response.  `today` is the calendar date of `now`
(`datetime.now(timezone.utc).date()`). -/
def submitAux (st : StoreState) (now : Int) (today : Nat × Nat × Nat)
    (captchaOk : Bool) (sub : Submission) :
    Except SubmitError (StoreState × IntakeFormResponse) :=
  match validateIntake captchaOk sub with
  | .error e => .error e
  | .ok v =>
    if check_duplicate_submission st.queues now v.student_first_name
        v.student_last_name v.student_dob v.parent_email 5 then
      .error .duplicateSubmission
    else .ok (commitIntake st now today v)

/-- `submit_intake_form` as the caller observes it: on the committed path
the new store is returned; on every rejection the open transaction is
discarded (`db.rollback()` or session close without commit), so the store
is unchanged. -/
def submit_intake_form (st : StoreState) (now : Int) (today : Nat × Nat × Nat)
    (captchaOk : Bool) (sub : Submission) :
    StoreState × Except SubmitError IntakeFormResponse :=
  match submitAux st now today captchaOk sub with
  | .ok (st1, resp) => (st1, .ok resp)
  | .error e => (st, .error e)

/-! ### Authenticated read path (`app/sap/routes.py`
`get_intake_form_details`, lines 557-774)

The `identifier` path parameter is embedded as the already-parsed handle;
a string that is no UUID yields `NotFound` before any lookup and is out
of scope here. -/

inductive ApiError where
  | notFound
  | internalError
  | invalidStatusValue
  | missingStudentFields
  | dobFormatInvalid
  | missingParentFields
  | invalidEmailFormat
  | serviceRequestTypeInvalid
  | insuranceFieldsRequired
  | serviceCategoryRequired
  | severityRequired
  | severityInvalid
  | typeOfServiceRequired
  deriving DecidableEq, Repr

structure StudentInformationS where
  first_name : String
  last_name : String
  full_name : String
  student_id : Option String
  grade : String
  school : String
  date_of_birth : String
  deriving DecidableEq, Repr

structure ParentGuardianContactS where
  name : String
  email : String
  phone : String
  deriving DecidableEq, Repr

structure InsuranceInformationS where
  has_insurance : String
  insurance_company : Option String
  policyholder_name : Option String
  relationship_to_student : Option String
  member_id : Option String
  group_number : Option String
  insurance_card_front_url : Option String
  insurance_card_back_url : Option String
  deriving DecidableEq, Repr

structure ServiceNeedsS where
  service_category : List String
  service_category_other : Option String
  severity_of_concern : String
  type_of_service_needed : List String
  family_resources : Option (List String)
  referral_concern : Option (List String)
  deriving DecidableEq, Repr

structure DemographicsS where
  sex_at_birth : Option String
  race : Option (List String)
  race_other : Option String
  ethnicity : Option (List String)
  deriving DecidableEq, Repr

structure IntakeFormDetailsResponseS where
  status : String
  student_information : StudentInformationS
  parent_guardian_contact : ParentGuardianContactS
  service_request_type : String
  insurance_information : InsuranceInformationS
  service_needs : ServiceNeedsS
  demographics : Option DemographicsS
  immediate_safety_concern : String
  authorization_consent : Bool
  deriving DecidableEq, Repr

/-- Status aliasing used by the details and update endpoints
(`routes.py` lines 637-645). -/
def statusMap : List (String × String) :=
  [("pending", "pending"), ("active", "active"), ("processed", "processed"),
   ("completed", "processed"), ("cancelled", "processed"), ("submitted", "submitted")]

def responseStatus (service_status : String) : String :=
  (statusMap.lookup service_status).getD "pending"

/-- Opt-in aliasing (`routes.py` lines 648-652). -/
def optInMap : List (String × String) :=
  [("immediate_service", "start_now"), ("future_eligibility", "opt_in_future")]

/-- Model of `s.startswith(pre)`. -/
def pyStartsWith (s pre : String) : Bool :=
  List.isPrefixOf pre.data s.data

/-- Model of `get_file_url` (`routes.py` lines 528-554), without the
request base URL and token decoration (string plumbing): a stored path
maps to the serving endpoint for its file name; full URLs pass through;
no path maps to `None`. -/
def get_file_url (file_path : Option String) : Option String :=
  match file_path with
  | none => none
  | some p =>
    if pyStartsWith p "http://" || pyStartsWith p "https://" then some p
    else some ("/api/v1/files/insurance/" ++ ⟨(splitOnChar '/' p.data).getLastD []⟩)

/-- The insurance block of the details response, built identically at
`routes.py` lines 697-707 (details) and lines 1146-1156 (update): every
field other than the yes/no flag is gated on
`dashboard_record.insurance_present`. -/
def buildInsuranceInformation (dashboard_record : DashboardRecordS)
    (intake_queue : IntakeQueueS) : InsuranceInformationS :=
  { has_insurance := if dashboard_record.insurance_present then "yes" else "no"
    insurance_company :=
      if dashboard_record.insurance_present then intake_queue.insurance_company else none
    policyholder_name :=
      if dashboard_record.insurance_present then intake_queue.policyholder_name else none
    relationship_to_student :=
      if dashboard_record.insurance_present then intake_queue.relationship_to_student else none
    member_id :=
      if dashboard_record.insurance_present then intake_queue.member_id else none
    group_number :=
      if dashboard_record.insurance_present then intake_queue.group_number else none
    insurance_card_front_url :=
      if dashboard_record.insurance_present then
        get_file_url intake_queue.insurance_card_front_url
      else none
    insurance_card_back_url :=
      if dashboard_record.insurance_present then
        get_file_url intake_queue.insurance_card_back_url
      else none }

/-- The full details response body (`routes.py` lines 623-763; repeated at
lines 1080-1209 for the update endpoint). -/
def buildIntakeFormDetailsResponse (dashboard_record : DashboardRecordS)
    (intake_queue : IntakeQueueS) (school : SchoolS) : IntakeFormDetailsResponseS :=
  { status := responseStatus dashboard_record.service_status
    student_information :=
      { first_name := intake_queue.student_first_name
        last_name := intake_queue.student_last_name
        full_name := intake_queue.student_full_name
        student_id := intake_queue.student_id
        grade := if intake_queue.student_grade = "" then "N/A" else intake_queue.student_grade
        school := school.name
        date_of_birth := intake_queue.date_of_birth.getD "" }
    parent_guardian_contact :=
      { name := intake_queue.parent_name
        email := intake_queue.parent_email
        phone := intake_queue.parent_phone }
    service_request_type := (optInMap.lookup dashboard_record.opt_in_type).getD "start_now"
    insurance_information := buildInsuranceInformation dashboard_record intake_queue
    service_needs :=
      { service_category := intake_queue.service_category
        service_category_other := intake_queue.service_category_other
        severity_of_concern := intake_queue.severity_of_concern.getD "mild"
        type_of_service_needed := intake_queue.type_of_service_needed
        family_resources := intake_queue.family_resources
        referral_concern := intake_queue.referral_concern }
    demographics :=
      if intake_queue.sex_at_birth.isSome || intake_queue.race.isSome ||
          intake_queue.ethnicity.isSome then
        some { sex_at_birth := intake_queue.sex_at_birth
               race := intake_queue.race
               race_other := intake_queue.race_other
               ethnicity := intake_queue.ethnicity }
      else none
    immediate_safety_concern := if intake_queue.immediate_safety_concern then "yes" else "no"
    authorization_consent := intake_queue.authorization_consent }

/-- Model of `get_intake_form_details`.  The role/district access check
(`routes.py` lines 596-602) is commented out in the source with a TODO,
so every authenticated user reaches the PHI fetch. -/
def get_intake_form_details (st : StoreState) (user : UserS) (identifier : Nat)
    (now : Int) : StoreState × Except ApiError IntakeFormDetailsResponseS :=
  match st.dashboards.find? (fun d => d.student_uuid == identifier) with
  | none => (st, .error .notFound)
  | some dashboard_record =>
    match st.queues.find? (fun q => q.dashboard_record_id == dashboard_record.id) with
    | none => (st, .error .notFound)
    | some intake_queue =>
      match st.schools.find? (fun sc => sc.id == dashboard_record.school_id) with
      | none => (st, .error .internalError)
      | some school =>
        let audit_log : AuditLogS :=
          { user_id := some user.id
            action := "view"
            resource_type := "intake_form_details"
            resource_id := some dashboard_record.id
            district_id := some dashboard_record.district_id
            created_at := now }
        ({ st with audits := st.audits ++ [audit_log] },
         .ok (buildIntakeFormDetailsResponse dashboard_record intake_queue school))

/-! ### Authenticated update path (`app/sap/routes.py`
`update_intake_form`, lines 777-1220) -/

structure UpdateForm where
  student_first_name : Option String
  student_last_name : Option String
  student_grade : Option String
  student_school : Option String
  student_dob : Option String
  student_id : Option String
  parent_name : Option String
  parent_email : Option String
  parent_phone : Option String
  service_request_type : Option String
  has_insurance : Option String
  insurance_company : Option String
  policyholder_name : Option String
  relationship_to_student : Option String
  member_id : Option String
  group_number : Option String
  card_front : Option String
  card_back : Option String
  service_category : List String
  service_category_other : Option String
  severity_of_concern : Option String
  type_of_service_needed : List String
  family_resources : List String
  referral_concern : List String
  sex_at_birth : Option String
  race : List String
  race_other : Option String
  ethnicity : List String
  immediate_safety_concern : Option String
  authorization_consent : Option String
  deriving DecidableEq, Repr

/-- Section-presence flags (`routes.py` lines 834-838): in the source they
test for any form key with the section prefix; here, for any field of the
section being supplied. -/
def updStudentFlag (f : UpdateForm) : Bool :=
  f.student_first_name.isSome || f.student_last_name.isSome || f.student_grade.isSome ||
  f.student_school.isSome || f.student_dob.isSome || f.student_id.isSome

def updParentFlag (f : UpdateForm) : Bool :=
  f.parent_name.isSome || f.parent_email.isSome || f.parent_phone.isSome

def updInsuranceFlag (f : UpdateForm) : Bool :=
  f.has_insurance.isSome || f.insurance_company.isSome || f.policyholder_name.isSome ||
  f.relationship_to_student.isSome || f.member_id.isSome || f.group_number.isSome ||
  f.card_front.isSome || f.card_back.isSome

def updServiceNeedsFlag (f : UpdateForm) : Bool :=
  !f.service_category.isEmpty || f.service_category_other.isSome ||
  f.severity_of_concern.isSome || !f.type_of_service_needed.isEmpty ||
  !f.family_resources.isEmpty || !f.referral_concern.isEmpty

def updDemographicsFlag (f : UpdateForm) : Bool :=
  f.sex_at_birth.isSome || !f.race.isEmpty || f.race_other.isSome || !f.ethnicity.isEmpty

def emailLocalChar (c : Char) : Bool :=
  (decide (65 ≤ c.toNat) && decide (c.toNat ≤ 90)) ||
  (decide (97 ≤ c.toNat) && decide (c.toNat ≤ 122)) ||
  (decide (48 ≤ c.toNat) && decide (c.toNat ≤ 57)) ||
  c = '.' || c = '_' || c = '%' || c = '+' || c = '-'

def emailDomainChar (c : Char) : Bool :=
  (decide (65 ≤ c.toNat) && decide (c.toNat ≤ 90)) ||
  (decide (97 ≤ c.toNat) && decide (c.toNat ≤ 122)) ||
  (decide (48 ≤ c.toNat) && decide (c.toNat ≤ 57)) ||
  c = '.' || c = '-'

def alphaChar (c : Char) : Bool :=
  (decide (65 ≤ c.toNat) && decide (c.toNat ≤ 90)) ||
  (decide (97 ≤ c.toNat) && decide (c.toNat ≤ 122))

/-- Model of the e-mail regular expression at `routes.py` line 902: one
local part of the permitted characters, one at-sign, a domain whose last
dot is followed by at least two letters and preceded by at least one
domain character. -/
def emailOk (s : String) : Bool :=
  match splitOnChar '@' s.data with
  | [lp, domain] =>
    (!lp.isEmpty && lp.all emailLocalChar) &&
    (!domain.isEmpty && domain.all emailDomainChar) &&
    (let parts := splitOnChar '.' domain
     let tld := parts.getLastD []
     decide (2 ≤ parts.length) && decide (2 ≤ tld.length) && tld.all alphaChar &&
     decide (tld.length + 2 ≤ domain.length))
  | _ => false

/-- The mutation phase of `update_intake_form` (`routes.py` lines
833-1063), applied to the fetched pair; every validation `raise` before
`db.commit()` is an `Except.error`, leaving the store untouched. -/
def applyIntakeUpdate (schools : List SchoolS) (dashboard_record : DashboardRecordS)
    (intake_queue : IntakeQueueS) (form : UpdateForm) (now : Int) :
    Except ApiError (DashboardRecordS × IntakeQueueS) := do
  -- 7. student information section
  let (d1, q1) ←
    if updStudentFlag form then
      match form.student_first_name, form.student_last_name, form.student_grade,
            form.student_school, form.student_dob with
      | some fn, some ln, some gr, some sch, some dob =>
        match parseDateStr? dob with
        | none => .error .dobFormatInvalid
        | some dd =>
          let q := { intake_queue with
                      student_first_name := fn
                      student_last_name := ln
                      student_full_name := fn ++ " " ++ ln
                      student_grade := gr
                      student_id := form.student_id
                      date_of_birth := some (fmtDate dd.1 dd.2.1 dd.2.2) }
          let d := { dashboard_record with
                      student_name := some (fn ++ " " ++ ln)
                      grade_band := calculate_grade_band gr }
          match schools.find? (fun sc => containsCI sc.name (pyStrip sch)) with
          | some school =>
            .ok ({ d with school_id := school.id, district_id := school.district_id }, q)
          | none => .ok (d, q)
      | _, _, _, _, _ => .error .missingStudentFields
    else .ok (dashboard_record, intake_queue)
  -- 8. parent/guardian contact section
  let q2 ←
    if updParentFlag form then
      match form.parent_name, form.parent_email, form.parent_phone with
      | some pn, some pe, some pp =>
        if !emailOk pe then .error .invalidEmailFormat
        else .ok { q1 with parent_name := pn, parent_email := pe, parent_phone := pp }
      | _, _, _ => .error .missingParentFields
    else .ok q1
  -- 9. service request type
  let d2 ←
    match form.service_request_type with
    | some srt =>
      if srt ∉ ["start_now", "opt_in_future"] then .error .serviceRequestTypeInvalid
      else
        .ok { d1 with opt_in_type :=
                if srt = "start_now" then "immediate_service" else "future_eligibility" }
    | none => .ok d1
  -- 10. insurance information section
  let (d3, q3) ←
    if updInsuranceFlag form then
      match form.has_insurance with
      | some hi =>
        let has_insurance := pyLower hi ∈ truthyStrings
        let d := { d2 with insurance_present := has_insurance }
        if has_insurance then
          match form.insurance_company, form.policyholder_name, form.member_id with
          | some ic, some phn, some mid =>
            .ok (d, { q2 with
                       insurance_company := some ic
                       policyholder_name := some phn
                       relationship_to_student := form.relationship_to_student
                       member_id := some mid
                       group_number := form.group_number })
          | _, _, _ => .error .insuranceFieldsRequired
        else
          .ok (d, { q2 with
                     insurance_company := none
                     policyholder_name := none
                     relationship_to_student := none
                     member_id := none
                     group_number := none })
      | none => .ok (d2, q2)
    else .ok (d2, q2)
  -- 11. file uploads replace the stored paths when provided
  let q4 :=
    { q3 with
       insurance_card_front_url :=
         match form.card_front with
         | some p => some p
         | none => q3.insurance_card_front_url
       insurance_card_back_url :=
         match form.card_back with
         | some p => some p
         | none => q3.insurance_card_back_url }
  -- 12. service needs section
  let q5 ←
    if updServiceNeedsFlag form then
      if form.service_category = [] then .error .serviceCategoryRequired
      else
        match form.severity_of_concern with
        | none => .error .severityRequired
        | some sev =>
          if sev ∉ ["mild", "moderate", "severe"] then .error .severityInvalid
          else if form.type_of_service_needed = [] then .error .typeOfServiceRequired
          else
            .ok { q4 with
                   service_category := form.service_category
                   service_category_other := form.service_category_other
                   severity_of_concern := some sev
                   type_of_service_needed := form.type_of_service_needed
                   family_resources :=
                     if form.family_resources = [] then none else some form.family_resources
                   referral_concern :=
                     if form.referral_concern = [] then none else some form.referral_concern }
    else .ok q4
  -- 13. demographics section
  let q6 :=
    if updDemographicsFlag form then
      { q5 with
         sex_at_birth := form.sex_at_birth
         race := if form.race = [] then none else some form.race
         race_other := form.race_other
         ethnicity := if form.ethnicity = [] then none else some form.ethnicity }
    else q5
  -- 14. safety and authorization flags
  let q7 :=
    match form.immediate_safety_concern with
    | some sc => { q6 with immediate_safety_concern := pyLower sc ∈ truthyStrings }
    | none => q6
  let q8 :=
    match form.authorization_consent with
    | some ac => { q7 with authorization_consent := pyLower ac = "true" }
    | none => q7
  -- 15. update timestamp
  .ok ({ d3 with updated_at := some now }, q8)

/-- Model of `update_intake_form`: fetch, mutate, commit, then rebuild the
details response (the access check at lines 814-815 is commented out in
the source). -/
def update_intake_form (st : StoreState) (user : UserS) (identifier : Nat)
    (form : UpdateForm) (now : Int) :
    StoreState × Except ApiError IntakeFormDetailsResponseS :=
  match st.dashboards.find? (fun d => d.student_uuid == identifier) with
  | none => (st, .error .notFound)
  | some dashboard_record =>
    match st.queues.find? (fun q => q.dashboard_record_id == dashboard_record.id) with
    | none => (st, .error .notFound)
    | some intake_queue =>
      match applyIntakeUpdate st.schools dashboard_record intake_queue form now with
      | .error e => (st, .error e)
      | .ok (d1, q1) =>
        let st1 :=
          { st with
             dashboards := st.dashboards.map (fun r => if r.id == d1.id then d1 else r)
             queues := st.queues.map (fun r => if r.id == q1.id then q1 else r) }
        match st1.schools.find? (fun sc => sc.id == d1.school_id) with
        | none => (st1, .error .internalError)
        | some school =>
          let audit_log : AuditLogS :=
            { user_id := some user.id
              action := "update"
              resource_type := "intake_form"
              resource_id := some d1.id
              district_id := some d1.district_id
              created_at := now }
          ({ st1 with audits := st1.audits ++ [audit_log] },
           .ok (buildIntakeFormDetailsResponse d1 q1 school))

/-! ### Status State Machine (`app/sap/routes.py` `update_intake_status`,
lines 1223-1336) -/

structure UpdateStatusResponseS where
  student_uuid : Nat
  status : String
  deriving DecidableEq, Repr

/-- Model of `update_intake_status`.  The role/district access check
(`routes.py` lines 1260-1266) is commented out in the source, so every
authenticated user may update.  When the status actually changes to
`processed`, the queue row's processing fields are set only if not
already set; an audit row is appended on every invocation. -/
def update_intake_status (st : StoreState) (user : UserS) (identifier : Nat)
    (new_status : String) (now : Int) :
    StoreState × Except ApiError UpdateStatusResponseS :=
  match st.dashboards.find? (fun d => d.student_uuid == identifier) with
  | none => (st, .error .notFound)
  | some dashboard_record =>
    if new_status ∉ ["pending", "processed", "active"] then
      (st, .error .invalidStatusValue)
    else
      let st1 :=
        if dashboard_record.service_status ≠ new_status then
          let d1 := { dashboard_record with
                       service_status := new_status, updated_at := some now }
          let st0 :=
            { st with dashboards :=
                st.dashboards.map (fun r => if r.id == d1.id then d1 else r) }
          if new_status = "processed" then
            match st.queues.find?
                (fun q => q.dashboard_record_id == dashboard_record.id) with
            | some intake_queue =>
              if ¬ intake_queue.processed then
                { st0 with queues :=
                    st0.queues.map (fun q =>
                      if q.id == intake_queue.id then
                        { intake_queue with
                           processed := true
                           processed_at := some now
                           processed_by := some user.id }
                      else q) }
              else st0
            | none => st0
          else st0
        else st
      let audit_log : AuditLogS :=
        { user_id := some user.id
          action := "update_status"
          resource_type := "intake_form"
          resource_id := some dashboard_record.id
          district_id := some dashboard_record.district_id
          created_at := now }
      ({ st1 with audits := st1.audits ++ [audit_log] },
       .ok { student_uuid := identifier, status := new_status })

/-! ### Store read operations and the Retention Reaper -/

/-- Dashboard lookup by handle, as issued by every route
(`routes.py` lines 468-470 and analogues). -/
def getByHandle (st : StoreState) (handle : Nat) : Option DashboardRecordS :=
  st.dashboards.find? (fun d => d.student_uuid == handle)

/-- Queue lookup by handle: the dashboard row is found first, then its
paired queue row (`routes.py` lines 604-607 and analogues); `none` also
covers a record purged by retention. -/
def getQueueByHandle (st : StoreState) (handle : Nat) : Option IntakeQueueS :=
  match getByHandle st handle with
  | none => none
  | some d => st.queues.find? (fun q => q.dashboard_record_id == d.id)

/-- Modelled from the spec: no Retention Reaper exists in the source tree
(only the `expires_at` / `deleted_at` columns of `models.py` lines
142-145 and `calculate_expires_at` are present).  Spec section 4.6
defines one sweep: select queue rows with `expires_at <= now` and
`deleted_at` null, claim each, and irrecoverably erase the PHI row
(deleting the row outright is one of the permitted erasures), touching
neither the paired dashboard rows nor any audit rows. -/
def reaperSweep (st : StoreState) (now : Int) : StoreState :=
  { st with queues :=
      st.queues.filter (fun q =>
        !(decide (q.expires_at ≤ now) && q.deleted_at == none)) }

/-! ### Concrete fixtures used by the claim theorems and witnesses -/

/-- A fixed calendar date standing in for `datetime.now().date()`. -/
def dday : Nat × Nat × Nat := (2025, 10, 12)

/-- The example public submission from the spec's testable properties
(Ana Lee, born 2012-04-01, parent ana at example.com), completed with
valid values for the remaining required fields. -/
def anaSubmission : Submission :=
  { student_first_name := some "Ana"
    student_last_name := some "Lee"
    student_full_name := some "Ana Lee"
    student_grade := some "5"
    student_school := some "Lincoln Elementary"
    student_dob := some "2012-04-01"
    student_id := some "S123"
    parent_name := some "Maria Lee"
    parent_email := some "ana@example.com"
    parent_phone := some "5551234567"
    service_request_type := some "start_now"
    has_insurance := some "yes"
    insurance_company := some "Acme Health"
    policyholder_name := some "Maria Lee"
    relationship_to_student := some "Mother"
    member_id := some "M789"
    group_number := some "G12"
    card_front := none
    card_back := none
    service_category := ["Counseling"]
    service_category_other := none
    severity_of_concern := some "mild"
    type_of_service_needed := ["Individual"]
    family_resources := []
    referral_concern := []
    sex_at_birth := some "F"
    race := []
    race_other := none
    ethnicity := []
    immediate_safety_concern := some "no"
    authorization_consent := some "true" }

/-- The validated form of `anaSubmission` (checked against
`validateIntake` by definitional unfolding in the proofs). -/
def anaValidated : ValidIntake :=
  { student_first_name := "Ana"
    student_last_name := "Lee"
    student_full_name := "Ana Lee"
    student_grade := "5"
    student_school := "Lincoln Elementary"
    student_dob := "2012-04-01"
    student_id := "S123"
    parent_name := "Maria Lee"
    parent_email := "ana@example.com"
    parent_phone := "5551234567"
    opt_in_type := "immediate_service"
    has_insurance := true
    safety_concern := false
    severity_of_concern := "mild"
    dob_date := (2012, 4, 1)
    sub := anaSubmission }

/-- The store after Ana's submission into an empty store at time `t1`. -/
def anaStore (t1 : Int) : StoreState :=
  (submit_intake_form emptyStore t1 dday true anaSubmission).1

/-- The same identity fields re-submitted in different letter case (the
duplicate guard compares case-insensitively). -/
def anaResubmission : Submission :=
  { anaSubmission with
      student_first_name := some "ANA"
      student_last_name := some "lee"
      parent_email := some "Ana@Example.COM" }

/-- The validated form of `anaResubmission`. -/
def anaResubValidated : ValidIntake :=
  { anaValidated with
      student_first_name := "ANA"
      student_last_name := "lee"
      parent_email := "Ana@Example.COM"
      sub := anaResubmission }

def districtOne : DistrictS := { id := 1, name := "District One", code := some "D1" }

def districtTwo : DistrictS := { id := 2, name := "District Two", code := some "D2" }

def schoolTwo : SchoolS := { id := 21, district_id := 2, name := "Oak Middle" }

/-- A dashboard record living in district 2. -/
def beaDashboard : DashboardRecordS :=
  { id := 5
    student_uuid := 77
    district_id := 2
    school_id := 21
    student_name := some "Bea Cruz"
    grade_band := "6-8"
    referral_source := "parent"
    opt_in_type := "immediate_service"
    referral_date := "2025-01-15"
    fiscal_period := "FY2025-Q3"
    insurance_present := true
    service_status := "pending"
    session_count := 0
    outcome_collected := false
    created_at := 0
    updated_at := none }

/-- The same dashboard record with the insurance flag cleared. -/
def beaDashboardNoIns : DashboardRecordS := { beaDashboard with insurance_present := false }

/-- The PHI queue row paired with `beaDashboard`, holding stored insurance
values. -/
def beaQueue : IntakeQueueS :=
  { id := 9
    dashboard_record_id := 5
    student_first_name := "Bea"
    student_last_name := "Cruz"
    student_full_name := "Bea Cruz"
    student_id := none
    student_grade := "7"
    date_of_birth := some "2011-03-02"
    parent_name := "Rosa Cruz"
    parent_email := "rosa@example.com"
    parent_phone := "5550000000"
    insurance_company := some "Acme Health"
    policyholder_name := some "Rosa Cruz"
    relationship_to_student := some "Mother"
    member_id := some "M1"
    group_number := some "G9"
    insurance_card_front_url := some "77_front_ab.jpg"
    insurance_card_back_url := none
    service_category := ["Counseling"]
    service_category_other := none
    severity_of_concern := some "mild"
    type_of_service_needed := ["Individual"]
    family_resources := none
    referral_concern := none
    sex_at_birth := none
    race := none
    race_other := none
    ethnicity := none
    immediate_safety_concern := false
    authorization_consent := true
    processed := false
    processed_at := none
    processed_by := none
    simplepractice_record_id := none
    created_at := 0
    expires_at := 1000000
    deleted_at := none }

/-- A store holding Bea's record (district 2) alongside district 1. -/
def crossScopeStore : StoreState :=
  { districts := [districtOne, districtTwo]
    schools := [schoolTwo]
    dashboards := [beaDashboard]
    queues := [beaQueue]
    audits := []
    nextDistrictId := 3
    nextSchoolId := 22
    nextDashboardId := 6
    nextQueueId := 10
    nextUuid := 78 }

/-- A non-admin principal whose home district is district 1 (the spec's
district-scoped `Principal`). -/
def scopedUser : UserS :=
  { id := 9, email := "viewer@example.com", role := some "user", district_id := some 1 }

/-- An authenticated staff user with a given id. -/
def staffUser (n : Nat) : UserS :=
  { id := n, email := "staff@example.com", role := some "user", district_id := none }

/-- The store after the first `processed` transition on Bea's record. -/
def c7FirstState (t1 : Int) (u1 : Nat) : StoreState :=
  (update_intake_status crossScopeStore (staffUser u1) 77 "processed" t1).1

/-- The store after invoking the `processed` transition a second time. -/
def c7SecondState (t1 t2 : Int) (u1 u2 : Nat) : StoreState :=
  (update_intake_status (c7FirstState t1 u1) (staffUser u2) 77 "processed" t2).1

/-! ## Theorems -/

/-! ### Vault helper lemmas -/

theorem isValidCodepoint_toNat (c : Char) : isValidCodepoint c.toNat = true := by
  have h : Nat.isValidChar c.toNat := c.valid
  unfold Nat.isValidChar at h
  unfold isValidCodepoint
  rcases h with h | ⟨h1, h2⟩
  · simp [h]
  · simp [h1, h2]
    omega

theorem map_ofNat_toNat (l : List Char) : l.map (Char.ofNat ∘ Char.toNat) = l := by
  induction l with
  | nil => rfl
  | cons c cs ih => simp [Char.ofNat_toNat, ih]

theorem strDecode_strEncode (s : String) : strDecode? (strEncode s) = some s := by
  unfold strDecode? strEncode
  have hall : (s.data.map Char.toNat).all isValidCodepoint = true := by
    rw [List.all_eq_true]
    intro x hx
    obtain ⟨c, _, rfl⟩ := List.mem_map.mp hx
    exact isValidCodepoint_toNat c
  rw [if_pos hall, List.map_map, map_ofNat_toNat]

theorem fernetDecrypt_fernetEncrypt (p : Bytes) : fernetDecrypt (fernetEncrypt p) = .ok p := by
  have hn : (p ++ p).length / 2 = p.length := by
    simp [List.length_append]
    omega
  show (if 128 = 128 ∧ (p ++ p).length = 2 * ((p ++ p).length / 2) ∧
        List.drop ((p ++ p).length / 2) (p ++ p) = List.take ((p ++ p).length / 2) (p ++ p) then
      Except.ok (List.take ((p ++ p).length / 2) (p ++ p))
    else Except.error FernetError.invalidToken) = Except.ok p
  simp only [hn]
  rw [if_pos ⟨by trivial, by simp [List.length_append, Nat.two_mul],
        by rw [List.drop_left, List.take_left]⟩, List.take_left]

theorem decrypt_phi_encrypt_phi (s : String) (h : s ≠ "") :
    decrypt_phi (encrypt_phi s) = some s := by
  unfold encrypt_phi
  rw [if_neg h]
  unfold decrypt_phi
  rw [if_neg (by simp [fernetEncrypt]), fernetDecrypt_fernetEncrypt]
  exact strDecode_strEncode s

theorem set_half_ne_left (p : Bytes) (j b : Nat) (hj : j < p.length)
    (hb : b ≠ p.get ⟨j, hj⟩) : p.set j b ≠ p := by
  intro heq
  apply hb
  have h1 := congrArg (fun l : Bytes => l[j]?) heq
  simp only [List.getElem?_set_eq_of_lt b hj] at h1
  rw [List.getElem?_eq_getElem hj] at h1
  simp [List.get_eq_getElem] at h1 ⊢
  exact h1

theorem fernetDecrypt_set_ne (p : Bytes) (i b : Nat)
    (h : i < (fernetEncrypt p).length)
    (hb : b ≠ (fernetEncrypt p).get ⟨i, h⟩) :
    fernetDecrypt ((fernetEncrypt p).set i b) = .error .invalidToken := by
  unfold fernetEncrypt at h hb ⊢
  cases i with
  | zero =>
    show (if b = 128 ∧ (p ++ p).length = 2 * ((p ++ p).length / 2) ∧
          List.drop ((p ++ p).length / 2) (p ++ p) = List.take ((p ++ p).length / 2) (p ++ p) then
        Except.ok (List.take ((p ++ p).length / 2) (p ++ p))
      else Except.error FernetError.invalidToken) = Except.error FernetError.invalidToken
    exact if_neg (fun hc => hb hc.1)
  | succ j =>
    have hj2 : j < (p ++ p).length := by
      have h2 : j + 1 < (p ++ p).length + 1 := by simpa using h
      omega
    have hbj : b ≠ (p ++ p).get ⟨j, hj2⟩ := hb
    show (if (128 : Nat) = 128 ∧
          ((p ++ p).set j b).length = 2 * (((p ++ p).set j b).length / 2) ∧
          List.drop (((p ++ p).set j b).length / 2) ((p ++ p).set j b) =
            List.take (((p ++ p).set j b).length / 2) ((p ++ p).set j b) then
        Except.ok (List.take (((p ++ p).set j b).length / 2) ((p ++ p).set j b))
      else Except.error FernetError.invalidToken) = Except.error FernetError.invalidToken
    have hlen : ((p ++ p).set j b).length = p.length + p.length := by
      simp [List.length_set, List.length_append]
    have hn : ((p ++ p).set j b).length / 2 = p.length := by
      rw [hlen]; omega
    rw [hn]
    apply if_neg
    rintro ⟨-, -, hdt⟩
    by_cases hj : j < p.length
    · have hset : (p ++ p).set j b = (p.set j b) ++ p := by
        rw [List.set_append]; simp [hj]
      rw [hset, List.drop_left' (by simp), List.take_left' (by simp)] at hdt
      -- hdt : p = p.set j b
      have hget : b ≠ p.get ⟨j, hj⟩ := by
        have : (p ++ p).get ⟨j, hj2⟩ = p.get ⟨j, hj⟩ := by
          simp [List.get_eq_getElem, List.getElem_append_left hj]
        rw [this] at hbj; exact hbj
      exact set_half_ne_left p j b hj hget hdt.symm
    · push_neg at hj
      have hj3 : j - p.length < p.length := by
        have := hj2
        simp [List.length_append] at this
        omega
      have hset : (p ++ p).set j b = p ++ (p.set (j - p.length) b) := by
        rw [List.set_append]
        simp [Nat.not_lt_of_le hj]
      rw [hset, List.drop_left, List.take_left] at hdt
      -- hdt : p.set (j - p.length) b = p
      have hget : b ≠ p.get ⟨j - p.length, hj3⟩ := by
        have : (p ++ p).get ⟨j, hj2⟩ = p.get ⟨j - p.length, hj3⟩ := by
          simp [List.get_eq_getElem, List.getElem_append_right hj]
        rw [this] at hbj; exact hbj
      exact set_half_ne_left p (j - p.length) b hj3 hget hdt

/-! ### Duplicate-guard and school-resolution helper lemmas -/

theorem findOrCreateSchool_tables (st : StoreState) (name : String) :
    (findOrCreateSchool st name).1.dashboards = st.dashboards ∧
    (findOrCreateSchool st name).1.queues = st.queues ∧
    (findOrCreateSchool st name).1.audits = st.audits := by
  simp only [findOrCreateSchool]
  cases List.find? (fun sc => containsCI sc.name (pyStrip name)) st.schools with
  | some school => exact ⟨rfl, rfl, rfl⟩
  | none =>
    cases List.find? (fun d => d.code == some "DEFAULT") st.districts with
    | some dd => exact ⟨rfl, rfl, rfl⟩
    | none => exact ⟨rfl, rfl, rfl⟩

theorem check_duplicate_of_mem (queues : List IntakeQueueS) (now : Int)
    (fn ln dob em : String) (wm : Int) (q : IntakeQueueS) (hq : q ∈ queues)
    (hr : now - wm * 60 ≤ q.created_at)
    (h1 : pyLower q.student_first_name = pyLower fn)
    (h2 : pyLower q.student_last_name = pyLower ln)
    (h3 : q.date_of_birth = some dob)
    (h4 : pyLower q.parent_email = pyLower em) :
    check_duplicate_submission queues now fn ln dob em wm = true := by
  unfold check_duplicate_submission
  rw [List.any_eq_true]
  refine ⟨q, List.mem_filter.mpr ⟨hq, by simpa using hr⟩, ?_⟩
  simp [h1, h2, h3, h4]

theorem check_duplicate_stale (queues : List IntakeQueueS) (now : Int)
    (fn ln dob em : String) (wm : Int)
    (h : ∀ q ∈ queues, q.created_at < now - wm * 60) :
    check_duplicate_submission queues now fn ln dob em wm = false := by
  simp only [check_duplicate_submission]
  have hf : queues.filter (fun q => decide (now - wm * 60 ≤ q.created_at)) = [] := by
    rw [List.filter_eq_nil_iff]
    intro q hq
    have := h q hq
    simp only [decide_eq_true_eq]
    omega
  rw [hf]
  rfl

/-- C6: for every pair of valid public submissions whose four normalized
identity fields (first name, last name, date of birth, parent e-mail) match
case-insensitively, into any store with no other matching recent record:
the first submission succeeds with status `pending`, the second one
submitted within 5 minutes of the first record's creation is rejected with
`DuplicateSubmission` and leaves the store unchanged, and the same second
payload submitted after the 5-minute window has elapsed is accepted
again. -/
theorem C6_duplicate_window :
    ∀ (st0 : StoreState) (t1 t2 t3 : Int) (today : Nat × Nat × Nat)
      (sub1 sub2 : Submission) (v1 v2 : ValidIntake),
      validateIntake true sub1 = .ok v1 →
      validateIntake true sub2 = .ok v2 →
      pyLower v2.student_first_name = pyLower v1.student_first_name →
      pyLower v2.student_last_name = pyLower v1.student_last_name →
      v2.student_dob = fmtDate v1.dob_date.1 v1.dob_date.2.1 v1.dob_date.2.2 →
      pyLower v2.parent_email = pyLower v1.parent_email →
      check_duplicate_submission st0.queues t1 v1.student_first_name
        v1.student_last_name v1.student_dob v1.parent_email 5 = false →
      (∀ q ∈ st0.queues, q.created_at ≤ t1) →
      t2 ≤ t1 + 300 → t1 + 300 < t3 →
      (submit_intake_form st0 t1 today true sub1 =
        ((commitIntake st0 t1 today v1).1, .ok (commitIntake st0 t1 today v1).2) ∧
       (commitIntake st0 t1 today v1).2.status = "pending") ∧
      submit_intake_form (commitIntake st0 t1 today v1).1 t2 today true sub2 =
        ((commitIntake st0 t1 today v1).1, .error .duplicateSubmission) ∧
      (∃ st2 resp2, submit_intake_form (commitIntake st0 t1 today v1).1 t3 today true sub2 =
        (st2, .ok resp2) ∧ resp2.status = "pending") := by
  intro st0 t1 t2 t3 today sub1 sub2 v1 v2 hv1 hv2 hfn hln hdob hem hnodup hold h2 h3
  have hq1 : (commitIntake st0 t1 today v1).1.queues =
      st0.queues ++ [newQueueRow (findOrCreateSchool st0 v1.student_school).1 t1 v1] := by
    simp only [commitIntake]
    rw [(findOrCreateSchool_tables st0 v1.student_school).2.1]
  refine ⟨⟨?_, rfl⟩, ?_, ?_⟩
  · have haux1 : submitAux st0 t1 today true sub1 = .ok (commitIntake st0 t1 today v1) := by
      unfold submitAux
      rw [hv1]
      simp [hnodup]
    unfold submit_intake_form
    rw [haux1]
  · have hdup : check_duplicate_submission (commitIntake st0 t1 today v1).1.queues t2
        v2.student_first_name v2.student_last_name v2.student_dob v2.parent_email 5 =
        true := by
      rw [hq1]
      refine check_duplicate_of_mem _ t2 _ _ _ _ 5
        (newQueueRow (findOrCreateSchool st0 v1.student_school).1 t1 v1)
        (List.mem_append_right _ (List.mem_singleton.mpr rfl)) ?_ ?_ ?_ ?_ ?_
      · show t2 - 5 * 60 ≤ t1
        omega
      · exact hfn.symm
      · exact hln.symm
      · show some (fmtDate v1.dob_date.1 v1.dob_date.2.1 v1.dob_date.2.2) =
          some v2.student_dob
        rw [hdob]
      · exact hem.symm
    have haux2 : submitAux (commitIntake st0 t1 today v1).1 t2 today true sub2 =
        .error .duplicateSubmission := by
      unfold submitAux
      rw [hv2]
      simp [hdup]
    unfold submit_intake_form
    rw [haux2]
  · have hstale : check_duplicate_submission (commitIntake st0 t1 today v1).1.queues t3
        v2.student_first_name v2.student_last_name v2.student_dob v2.parent_email 5 =
        false := by
      rw [hq1]
      apply check_duplicate_stale
      intro q hq
      rcases List.mem_append.mp hq with hq | hq
      · have := hold q hq
        omega
      · rw [List.mem_singleton] at hq
        subst hq
        show t1 < t3 - 5 * 60
        omega
    have haux3 : submitAux (commitIntake st0 t1 today v1).1 t3 today true sub2 =
        .ok (commitIntake (commitIntake st0 t1 today v1).1 t3 today v2) := by
      unfold submitAux
      rw [hv2]
      simp [hstale]
    refine ⟨(commitIntake (commitIntake st0 t1 today v1).1 t3 today v2).1,
            (commitIntake (commitIntake st0 t1 today v1).1 t3 today v2).2, ?_, rfl⟩
    unfold submit_intake_form
    rw [haux3]

/-- C3: every successful submission commits exactly one new dashboard record,
one new queue record linked 1:1 to it, and one `create` audit row; every
rejection before the commit leaves the store exactly as it was (rollback), so
no dashboard record ever appears without its paired queue record and audit
row. -/
theorem C3_submit_atomic :
    ∀ (st : StoreState) (now : Int) (today : Nat × Nat × Nat) (captchaOk : Bool)
      (sub : Submission),
      (∀ st1 resp, submit_intake_form st now today captchaOk sub = (st1, .ok resp) →
        ∃ d q a, st1.dashboards = st.dashboards ++ [d] ∧
          st1.queues = st.queues ++ [q] ∧ st1.audits = st.audits ++ [a] ∧
          q.dashboard_record_id = d.id ∧ a.action = "create" ∧
          resp.status = "pending") ∧
      (∀ st1 e, submit_intake_form st now today captchaOk sub = (st1, .error e) →
        st1 = st) := by
  intro st now today cap sub
  constructor
  · intro st1 resp h
    unfold submit_intake_form at h
    cases haux : submitAux st now today cap sub with
    | error e => rw [haux] at h; simp at h
    | ok pr =>
      obtain ⟨pst, presp⟩ := pr
      rw [haux] at h
      simp only [Prod.mk.injEq, Except.ok.injEq] at h
      obtain ⟨h1, h2⟩ := h
      subst h1
      subst h2
      unfold submitAux at haux
      cases hv : validateIntake cap sub with
      | error e => rw [hv] at haux; simp at haux
      | ok v =>
        rw [hv] at haux
        split at haux
        next e2 hcond => exact absurd hcond (by simp)
        next v2 hcond =>
          injection hcond with hveq
          subst hveq
          split at haux
          next hcond2 => exact absurd haux (by simp)
          next hcond2 =>
            rw [Except.ok.injEq] at haux
            have hst : pst = (commitIntake st now today v).1 := by rw [haux]
            have hrsp : presp = (commitIntake st now today v).2 := by rw [haux]
            obtain ⟨hd, hq, ha⟩ := findOrCreateSchool_tables st v.student_school
            refine ⟨newDashboardRow (findOrCreateSchool st v.student_school).1 now today v
                      (findOrCreateSchool st v.student_school).2,
                    newQueueRow (findOrCreateSchool st v.student_school).1 now v,
                    createAuditRow now (findOrCreateSchool st v.student_school).2,
                    ?_, ?_, ?_, rfl, rfl, ?_⟩
            · rw [hst]
              simp only [commitIntake]
              rw [hd]
            · rw [hst]
              simp only [commitIntake]
              rw [hq]
            · rw [hst]
              simp only [commitIntake]
              rw [ha]
            · rw [hrsp]
              rfl
  · intro st1 e h
    unfold submit_intake_form at h
    cases haux : submitAux st now today cap sub with
    | error e2 =>
      rw [haux] at h
      simp only [Prod.mk.injEq] at h
      exact h.1.symm
    | ok pr =>
      obtain ⟨a, b⟩ := pr
      rw [haux] at h
      simp at h

/-- Witness for C3 at Ana's concrete submission and a failing (CAPTCHA)
submission. -/
theorem C3_submit_atomic_witness :
    (∃ d q a, (anaStore 0).dashboards = emptyStore.dashboards ++ [d] ∧
      (anaStore 0).queues = emptyStore.queues ++ [q] ∧
      (anaStore 0).audits = emptyStore.audits ++ [a] ∧
      q.dashboard_record_id = d.id ∧ a.action = "create" ∧
      ({ student_uuid := 1, message := "Intake form submitted successfully",
         status := "pending" } : IntakeFormResponse).status = "pending") ∧
    (submit_intake_form emptyStore 0 dday false anaSubmission).1 = emptyStore :=
  ⟨(C3_submit_atomic emptyStore 0 dday true anaSubmission).1 (anaStore 0)
      { student_uuid := 1, message := "Intake form submitted successfully",
        status := "pending" } rfl,
   (C3_submit_atomic emptyStore 0 dday false anaSubmission).2
      (submit_intake_form emptyStore 0 dday false anaSubmission).1 .captchaFailed rfl⟩

/-- C4 (amended): for every nonempty PHI string, decrypting the encryption
returns the original string; the empty input maps to the empty-ciphertext
sentinel, and decrypting the sentinel yields `None` (absence), not the empty
string. -/
theorem C4_vault_roundtrip_amended :
    (∀ s : String, s ≠ "" → decrypt_phi (encrypt_phi s) = some s) ∧
    encrypt_phi "" = [] ∧ decrypt_phi (encrypt_phi "") = none :=
  ⟨decrypt_phi_encrypt_phi, rfl, rfl⟩

/-- Witness for C4 at the concrete string Ana. -/
theorem C4_vault_roundtrip_witness :
    ("Ana" : String) ≠ "" ∧ decrypt_phi (encrypt_phi "Ana") = some "Ana" :=
  ⟨by decide, C4_vault_roundtrip_amended.1 "Ana" (by decide)⟩

/-- C4 counterexample: the round trip at the empty string does not recover
the empty string (`decrypt_phi` returns `None` for the sentinel). -/
theorem C4_vault_roundtrip_counterexample :
    decrypt_phi (encrypt_phi "") ≠ some "" := by decide

/-- C5 (amended): modifying any single byte of a ciphertext produced by
`encrypt_phi` makes `decrypt_phi` return `None` (the library error is caught
inside `decrypt_phi`); it never returns altered, corrupted or partial
plaintext. -/
theorem C5_tamper_fail_closed :
    ∀ (s : String) (i b : Nat), s ≠ "" →
      ∀ h : i < (encrypt_phi s).length,
        b ≠ (encrypt_phi s).get ⟨i, h⟩ →
        decrypt_phi ((encrypt_phi s).set i b) = none := by
  intro s i b hs h hb
  have he : encrypt_phi s = fernetEncrypt (strEncode s) := by
    unfold encrypt_phi
    rw [if_neg hs]
  revert h hb
  rw [he]
  intro h hb
  have hnil : (fernetEncrypt (strEncode s)).set i b ≠ [] := by
    intro hnil
    have hlen := congrArg List.length hnil
    simp [fernetEncrypt] at hlen
  unfold decrypt_phi
  rw [if_neg hnil, fernetDecrypt_set_ne (strEncode s) i b h hb]

/-- Witness for C5 at a concrete one-byte ciphertext modification. -/
theorem C5_tamper_fail_closed_witness :
    decrypt_phi ((encrypt_phi "A").set 0 0) = none :=
  C5_tamper_fail_closed "A" 0 0 (by decide) (by decide) (by decide)

/-- C5 counterexample: on a tampered ciphertext `decrypt_phi` returns the
plain `None` value - the same observable as for absent input - rather than
surfacing a distinguished `VaultError` (no such error type exists in the
code; the exception is swallowed). -/
theorem C5_tamper_counterexample :
    decrypt_phi ((encrypt_phi "Ana").set 0 0) = none ∧ decrypt_phi [] = none := by
  exact ⟨by decide, rfl⟩

/-- C1 (code evaluated at the failing input): a valid submission persists
the student name, date of birth, parent e-mail and insurance member id in
the queue record verbatim as plaintext strings - the vault's `encrypt_phi`
is never applied on the ingestion path. -/
theorem C1_phi_persisted_plaintext :
    ((submit_intake_form emptyStore 0 dday true anaSubmission).1.queues.map
        (fun q => (q.student_first_name, q.student_last_name, q.date_of_birth,
                   q.parent_email, q.member_id))) =
      [("Ana", "Lee", some "2012-04-01", "ana@example.com", some "M789")] ∧
    (submit_intake_form emptyStore 0 dday true anaSubmission).2 =
      .ok { student_uuid := 1, message := "Intake form submitted successfully",
            status := "pending" } :=
  ⟨by decide, rfl⟩

/-- C2 (code evaluated at the failing input): a non-admin principal with
home district 1 requesting the details of a record in district 2 receives
the full decrypted PHI response, not `Forbidden` - the district scope check
is commented out in the source. -/
theorem C2_cross_scope_read_not_forbidden :
    ((get_intake_form_details crossScopeStore scopedUser 77 0).2.map
        (fun r => r.student_information.first_name)) = .ok "Bea" ∧
    scopedUser.district_id = some 1 ∧ beaDashboard.district_id = 2 :=
  ⟨rfl, rfl, rfl⟩

/-- C7: invoking the `processed` transition twice on the same record sets
`processed`/`processed_at`/`processed_by` exactly once (fixed at the
first-call values), the second invocation is an accepted no-op on the rows,
and each invocation appends one `update_status` audit row. -/
theorem C7_processed_idempotent :
    ∀ (t1 t2 : Int) (u1 u2 : Nat),
      (c7FirstState t1 u1).queues.map
          (fun q => (q.processed, q.processed_at, q.processed_by)) =
        [(true, some t1, some u1)] ∧
      (update_intake_status (c7FirstState t1 u1) (staffUser u2) 77 "processed" t2).2 =
        .ok { student_uuid := 77, status := "processed" } ∧
      (c7SecondState t1 t2 u1 u2).queues = (c7FirstState t1 u1).queues ∧
      (c7SecondState t1 t2 u1 u2).dashboards = (c7FirstState t1 u1).dashboards ∧
      (c7FirstState t1 u1).audits.map (fun a => a.action) = ["update_status"] ∧
      (c7SecondState t1 t2 u1 u2).audits.map (fun a => a.action) =
        ["update_status", "update_status"] :=
  fun t1 t2 u1 u2 => ⟨rfl, rfl, rfl, rfl, rfl, rfl⟩

/-- C8 (spec-modelled Reaper): once a record's `expires_at` has passed, a
sweep purges its queue row - `getQueueByHandle` then returns `NotFound` -
while `getByHandle` still returns the unchanged dashboard record and every
audit row is untouched. -/
theorem C8_reaper_purges_queue_only :
    ∀ (st : StoreState) (now : Int) (handle : Nat) (d : DashboardRecordS),
      getByHandle st handle = some d →
      (∀ q ∈ st.queues, q.dashboard_record_id = d.id →
        q.expires_at ≤ now ∧ q.deleted_at = none) →
      getQueueByHandle (reaperSweep st now) handle = none ∧
      getByHandle (reaperSweep st now) handle = getByHandle st handle ∧
      (reaperSweep st now).dashboards = st.dashboards ∧
      (reaperSweep st now).audits = st.audits := by
  intro st now handle d hfind hexp
  refine ⟨?_, rfl, rfl, rfl⟩
  unfold getQueueByHandle
  rw [show getByHandle (reaperSweep st now) handle = getByHandle st handle from rfl, hfind]
  rw [List.find?_eq_none]
  intro q hq
  have hq2 : q ∈ st.queues.filter
      (fun q => !(decide (q.expires_at ≤ now) && q.deleted_at == none)) := hq
  obtain ⟨hmem, hpred⟩ := List.mem_filter.mp hq2
  intro hbeq
  have hid : q.dashboard_record_id = d.id := by simpa using hbeq
  obtain ⟨he, hdel⟩ := hexp q hmem hid
  simp [he, hdel] at hpred

/-- Witness for C8 at a concrete expired record. -/
theorem C8_reaper_witness :
    getQueueByHandle (reaperSweep crossScopeStore 2000000) 77 = none ∧
    getByHandle (reaperSweep crossScopeStore 2000000) 77 = getByHandle crossScopeStore 77 ∧
    (reaperSweep crossScopeStore 2000000).dashboards = crossScopeStore.dashboards ∧
    (reaperSweep crossScopeStore 2000000).audits = crossScopeStore.audits :=
  C8_reaper_purges_queue_only crossScopeStore 2000000 77 beaDashboard (by decide) (by decide)

/-- C10: in the details and update responses, whenever the dashboard
record's insurance flag is false every insurance field of the response
(company, policyholder, relationship, member id, group number, both card
URLs) is null regardless of the stored queue values; both endpoints build
the block with `buildInsuranceInformation`. -/
theorem C10_insurance_redacted_when_absent :
    ∀ (d : DashboardRecordS) (q : IntakeQueueS) (school : SchoolS),
      (buildIntakeFormDetailsResponse d q school).insurance_information =
        buildInsuranceInformation d q ∧
      (d.insurance_present = false →
        buildInsuranceInformation d q =
          { has_insurance := "no", insurance_company := none, policyholder_name := none,
            relationship_to_student := none, member_id := none, group_number := none,
            insurance_card_front_url := none, insurance_card_back_url := none }) := by
  intro d q school
  refine ⟨rfl, fun h => ?_⟩
  unfold buildInsuranceInformation
  rw [h]
  rfl

/-- Witness for C10 at a record whose queue row holds stored insurance
values. -/
theorem C10_insurance_redacted_witness :
    beaDashboardNoIns.insurance_present = false ∧
    (buildIntakeFormDetailsResponse beaDashboardNoIns beaQueue schoolTwo).insurance_information =
      buildInsuranceInformation beaDashboardNoIns beaQueue ∧
    buildInsuranceInformation beaDashboardNoIns beaQueue =
      { has_insurance := "no", insurance_company := none, policyholder_name := none,
        relationship_to_student := none, member_id := none, group_number := none,
        insurance_card_front_url := none, insurance_card_back_url := none } :=
  ⟨rfl, (C10_insurance_redacted_when_absent beaDashboardNoIns beaQueue schoolTwo).1,
   (C10_insurance_redacted_when_absent beaDashboardNoIns beaQueue schoolTwo).2 rfl⟩

/-- Witness for C6 at Ana's submission, its differently-cased
re-submission, the empty store, and concrete times 0, 300 and 301. -/
theorem C6_duplicate_window_witness :
    (submit_intake_form emptyStore 0 dday true anaSubmission =
        ((commitIntake emptyStore 0 dday anaValidated).1,
         .ok (commitIntake emptyStore 0 dday anaValidated).2) ∧
      (commitIntake emptyStore 0 dday anaValidated).2.status = "pending") ∧
    submit_intake_form (commitIntake emptyStore 0 dday anaValidated).1 300 dday true
        anaResubmission =
      ((commitIntake emptyStore 0 dday anaValidated).1, .error .duplicateSubmission) ∧
    (∃ st2 resp2, submit_intake_form (commitIntake emptyStore 0 dday anaValidated).1 301
        dday true anaResubmission = (st2, .ok resp2) ∧ resp2.status = "pending") :=
  C6_duplicate_window emptyStore 0 300 301 dday anaSubmission anaResubmission
    anaValidated anaResubValidated rfl rfl (by decide) (by decide) (by decide) (by decide)
    (by decide) (by decide) (by decide) (by decide)

end VPM
